import Mathlib

/-
Verification of the real-time connection layer of the ai-novel-writer-frontend
repository: the `WebSocketManager` state machine in
`src/lib/websocket-manager.ts`, and the status-aggregation logic of the
`WebSocketProvider` React context (the `processing-status` / `task-update`
handlers).

The embedding is shallow: each TypeScript method body is translated into a
pure Lean function on an explicit manager-state record.  Browser-side socket
behaviour (the `readyState` of a `WebSocket`, the firing of `onopen` /
`onclose` / `onerror`, timers) is modelled by an event alphabet and a step
function; `validEvent` states when the browser could actually deliver an
event (e.g. `onopen` only fires on a socket whose readyState is CONNECTING).
-/

namespace AINovel

/-- Connection states, from the `ConnectionState` enum of
`websocket-manager.ts`. -/
inductive ConnectionState
  | connecting
  | connected
  | disconnected
  | reconnecting
  | error
deriving DecidableEq, Repr

/-- The readyState of a browser WebSocket.  `opened` models the OPEN
constant. -/
inductive ReadyState
  | connecting
  | opened
  | closing
  | closed
deriving DecidableEq, Repr

/-- A physical socket.  `id` is model bookkeeping: each call to
`new WebSocket(...)` constructs a socket with a fresh id, so that "a second
socket was opened" is expressible. -/
structure Socket where
  id : Nat
  url : String
  readyState : ReadyState
deriving DecidableEq, Repr

/-- The resolved (`Required<WebSocketConfig>`) configuration. -/
structure WebSocketConfig where
  url : String
  reconnectInterval : Nat
  maxReconnectAttempts : Nat
  heartbeatInterval : Nat
  authToken : String
deriving DecidableEq, Repr

/-- A partial `WebSocketConfig` as passed by callers (all fields optional). -/
structure PartialConfig where
  url : Option String := none
  reconnectInterval : Option Nat := none
  maxReconnectAttempts : Option Nat := none
  heartbeatInterval : Option Nat := none
  authToken : Option String := none
deriving DecidableEq, Repr

/-- `DEFAULT_CONFIG` from `websocket-manager.ts` (times in milliseconds). -/
def DEFAULT_CONFIG : WebSocketConfig :=
  { url := "ws://localhost:8000/ws"
    reconnectInterval := 3000
    maxReconnectAttempts := 5
    heartbeatInterval := 30000
    authToken := "" }

/-- The spread `{ ...DEFAULT_CONFIG, ...config }` in the constructor. -/
def mergeConfig (base : WebSocketConfig) (c : PartialConfig) : WebSocketConfig :=
  { url := c.url.getD base.url
    reconnectInterval := c.reconnectInterval.getD base.reconnectInterval
    maxReconnectAttempts := c.maxReconnectAttempts.getD base.maxReconnectAttempts
    heartbeatInterval := c.heartbeatInterval.getD base.heartbeatInterval
    authToken := c.authToken.getD base.authToken }

/-- Hexadecimal digits for percent-encoding. -/
def hexDigit (n : Nat) : Char :=
  (['0', '1', '2', '3', '4', '5', '6', '7', '8', '9',
    'A', 'B', 'C', 'D', 'E', 'F']).getD n '0'

/-- Characters left untouched by JavaScript `encodeURIComponent`. -/
def isUnreservedURIChar (c : Char) : Bool :=
  (('A' ≤ c && c ≤ 'Z') || ('a' ≤ c && c ≤ 'z') || ('0' ≤ c && c ≤ '9')
    || c == '-' || c == '_' || c == '.' || c == '!' || c == '~' || c == '*'
    || c == Char.ofNat 39 || c == '(' || c == ')')

/-- UTF-8 byte sequence of a code point. -/
def utf8Bytes (c : Char) : List Nat :=
  let n := c.toNat
  if n < 128 then [n]
  else if n < 2048 then [192 + n / 64, 128 + n % 64]
  else if n < 65536 then [224 + n / 4096, 128 + (n / 64) % 64, 128 + n % 64]
  else [240 + n / 262144, 128 + (n / 4096) % 64, 128 + (n / 64) % 64,
        128 + n % 64]

/-- JavaScript `encodeURIComponent`. -/
def encodeURIComponent (s : String) : String :=
  (s.data.map fun c =>
    if isUnreservedURIChar c then String.mk [c]
    else ((utf8Bytes c).map fun b =>
      "%" ++ String.mk [hexDigit (b / 16), hexDigit (b % 16)]).foldl (· ++ ·) ""
  ).foldl (· ++ ·) ""

/-- The URL used by `connect`: the configured URL, with `?token=...` appended
when an auth token is stored (lines 80-82 of `websocket-manager.ts`). -/
def wsUrl (c : WebSocketConfig) : String :=
  if c.authToken ≠ "" then
    c.url ++ "?token=" ++ encodeURIComponent c.authToken
  else
    c.url

/-- The mutable fields of the `WebSocketManager` class.  `reconnectTimer`
holds the delay (ms) of the pending reconnect timeout, `none` when no timer is
set; `heartbeatTimer` records whether the heartbeat interval is running;
`nextSocketId` is model bookkeeping counting `new WebSocket` constructions. -/
structure WebSocketManager where
  ws : Option Socket
  config : WebSocketConfig
  connectionState : ConnectionState
  reconnectAttempts : Nat
  reconnectTimer : Option Nat
  heartbeatTimer : Bool
  nextSocketId : Nat
deriving DecidableEq, Repr

/-- The private constructor: all fields start at their declared initial
values, with the configuration merged over `DEFAULT_CONFIG`. -/
def mkManager (config : PartialConfig) : WebSocketManager :=
  { ws := none
    config := mergeConfig DEFAULT_CONFIG config
    connectionState := ConnectionState.disconnected
    reconnectAttempts := 0
    reconnectTimer := none
    heartbeatTimer := false
    nextSocketId := 0 }

/-- The test `this.ws?.readyState === WebSocket.OPEN`. -/
def socketOpen (m : WebSocketManager) : Bool :=
  match m.ws with
  | some s => s.readyState == ReadyState.opened
  | none => false

/-- `setConnectionState`: updates the state and, when it changed, notifies
the state-change handlers.  The second component is the list of notifications
emitted. -/
def setConnectionState (m : WebSocketManager) (s : ConnectionState) :
    WebSocketManager × List ConnectionState :=
  if m.connectionState = s then (m, [])
  else ({ m with connectionState := s }, [s])

/-- `clearReconnectTimer`. -/
def clearReconnectTimer (m : WebSocketManager) : WebSocketManager :=
  { m with reconnectTimer := none }

/-- `clearHeartbeatTimer`. -/
def clearHeartbeatTimer (m : WebSocketManager) : WebSocketManager :=
  { m with heartbeatTimer := false }

/-- `startHeartbeat`: clears any running heartbeat interval and starts a new
one. -/
def startHeartbeat (m : WebSocketManager) : WebSocketManager :=
  { clearHeartbeatTimer m with heartbeatTimer := true }

/-- `scheduleReconnect` (lines 231-246): at or past the attempt limit it
moves to `error` and schedules nothing; otherwise it increments the attempt
counter, moves to `reconnecting`, and sets the reconnect timeout with delay
`reconnectInterval * reconnectAttempts` (the counter after the increment). -/
def scheduleReconnect (m : WebSocketManager) :
    WebSocketManager × List ConnectionState :=
  if m.config.maxReconnectAttempts ≤ m.reconnectAttempts then
    setConnectionState m ConnectionState.error
  else
    let m1 := { m with reconnectAttempts := m.reconnectAttempts + 1 }
    let p := setConnectionState m1 ConnectionState.reconnecting
    ({ p.fst with
        reconnectTimer :=
          some (m.config.reconnectInterval * m1.reconnectAttempts) }, p.snd)

/-- `connect(authToken?)` (lines 66-91).  The argument `tok` is the passed
token, `""` standing for a missing/empty (falsy) argument; `ctorOk` records
whether `new WebSocket(wsUrl)` succeeds (the `try`/`catch`).  Returns the new
manager and the emitted state notifications. -/
def connect (tok : String) (ctorOk : Bool) (m : WebSocketManager) :
    WebSocketManager × List ConnectionState :=
  if socketOpen m then (m, [])
  else
    let m1 :=
      if tok ≠ "" then { m with config := { m.config with authToken := tok } }
      else m
    let p1 := setConnectionState m1 ConnectionState.connecting
    let m2 := clearReconnectTimer p1.fst
    if ctorOk then
      ({ m2 with
          ws := some { id := m2.nextSocketId, url := wsUrl m2.config,
                       readyState := ReadyState.connecting }
          nextSocketId := m2.nextSocketId + 1 }, p1.snd)
    else
      let p2 := setConnectionState m2 ConnectionState.error
      let p3 := scheduleReconnect p2.fst
      (p3.fst, p1.snd ++ p2.snd ++ p3.snd)

/-- `disconnect()` (lines 93-104): clears both timers, closes and drops the
socket, moves to `disconnected`, and resets the attempt counter. -/
def disconnect (m : WebSocketManager) : WebSocketManager × List ConnectionState :=
  let m1 := clearHeartbeatTimer (clearReconnectTimer m)
  let m2 := { m1 with ws := none }
  let p := setConnectionState m2 ConnectionState.disconnected
  ({ p.fst with reconnectAttempts := 0 }, p.snd)

/-- Result of a `send(type, data)` call: the (unchanged) manager, whether the
message went out on the socket, and whether the not-connected warning was
logged instead. -/
structure SendResult where
  manager : WebSocketManager
  transmitted : Bool
  warned : Bool
deriving DecidableEq, Repr

/-- `send` (lines 140-147): transmits iff the socket readyState is OPEN,
otherwise logs a warning and drops the message; it never queues and never
changes manager state. -/
def send (m : WebSocketManager) : SendResult :=
  if socketOpen m then
    { manager := m, transmitted := true, warned := false }
  else
    { manager := m, transmitted := false, warned := true }

/-- The `onopen` handler (lines 163-168), together with the transport moving
the socket's readyState to OPEN before firing it: state becomes `connected`,
the attempt counter resets to 0, and the heartbeat starts. -/
def onOpen (m : WebSocketManager) : WebSocketManager × List ConnectionState :=
  let m1 := { m with ws := m.ws.map fun s => { s with readyState := ReadyState.opened } }
  let p := setConnectionState m1 ConnectionState.connected
  (startHeartbeat { p.fst with reconnectAttempts := 0 }, p.snd)

/-- The `onclose` handler (lines 170-180), together with the transport moving
the socket's readyState to CLOSED before firing it: the heartbeat stops, the
state becomes `disconnected`, and for any close code other than 1000 the
reconnection policy (`scheduleReconnect`) is then evaluated. -/
def onClose (code : Nat) (m : WebSocketManager) :
    WebSocketManager × List ConnectionState :=
  let m1 := { m with ws := m.ws.map fun s => { s with readyState := ReadyState.closed } }
  let m2 := clearHeartbeatTimer m1
  if code ≠ 1000 then
    let p1 := setConnectionState m2 ConnectionState.disconnected
    let p2 := scheduleReconnect p1.fst
    (p2.fst, p1.snd ++ p2.snd)
  else
    setConnectionState m2 ConnectionState.disconnected

/-- The `onerror` handler (lines 182-185), together with the transport taking
the socket out of OPEN (to CLOSING; the close event follows separately):
state becomes `error`. -/
def onError (m : WebSocketManager) : WebSocketManager × List ConnectionState :=
  let m1 := { m with ws := m.ws.map fun s => { s with readyState := ReadyState.closing } }
  setConnectionState m1 ConnectionState.error

/-- The events the single-threaded execution context can deliver to the
manager: API calls, socket callbacks on the current socket, and timer
expirations.  `ctorOk` on `connectCall`/`timerFire` records whether the
`new WebSocket` constructor inside the triggered `connect` succeeds. -/
inductive Event
  | connectCall (token : String) (ctorOk : Bool)
  | disconnectCall
  | sendCall
  | wsOpen
  | wsClose (code : Nat)
  | wsError
  | timerFire (ctorOk : Bool)
  | heartbeatTick
deriving DecidableEq, Repr

/-- Whether an event can actually occur in a given manager state: socket
callbacks need a current socket in the right readyState, timer events need
the corresponding timer to be pending; API calls are always possible. -/
def validEvent (m : WebSocketManager) : Event → Bool
  | Event.connectCall _ _ => true
  | Event.disconnectCall => true
  | Event.sendCall => true
  | Event.wsOpen =>
      match m.ws with
      | some s => s.readyState == ReadyState.connecting
      | none => false
  | Event.wsClose _ =>
      match m.ws with
      | some s => s.readyState != ReadyState.closed
      | none => false
  | Event.wsError => m.ws.isSome
  | Event.timerFire _ => m.reconnectTimer.isSome
  | Event.heartbeatTick => m.heartbeatTimer

/-- One step of the manager: the effect of an event on the manager state.
A firing reconnect timer is consumed and runs `this.connect()` (no token
argument); a heartbeat tick sends a ping, which leaves the manager state
unchanged. -/
def stepM (m : WebSocketManager) : Event → WebSocketManager
  | Event.connectCall tok ok => (connect tok ok m).fst
  | Event.disconnectCall => (disconnect m).fst
  | Event.sendCall => (send m).manager
  | Event.wsOpen => (onOpen m).fst
  | Event.wsClose code => (onClose code m).fst
  | Event.wsError => (onError m).fst
  | Event.timerFire ok =>
      if m.reconnectTimer.isSome then (connect "" ok (clearReconnectTimer m)).fst
      else m
  | Event.heartbeatTick => m

/-- Run a sequence of events. -/
def run (m : WebSocketManager) : List Event → WebSocketManager
  | [] => m
  | e :: es => run (stepM m e) es

/-- A trace is valid when every event is possible in the state where it
occurs. -/
def validTrace (m : WebSocketManager) : List Event → Bool
  | [] => true
  | e :: es => validEvent m e && validTrace (stepM m e) es

/-- Whether an event is an explicit `connect()` API call. -/
def isConnectCall : Event → Bool
  | Event.connectCall _ _ => true
  | _ => false

/-- `getInstance(config?)` (lines 58-63) acting on the module-level
`WebSocketManager.instance` slot: creates the instance from the config on
first call, returns the existing instance (ignoring the config argument)
afterwards.  Result: (returned instance, new slot contents). -/
def getInstance (inst : Option WebSocketManager) (config : PartialConfig) :
    WebSocketManager × Option WebSocketManager :=
  match inst with
  | some i => (i, some i)
  | none =>
      let i := mkManager config
      (i, some i)

/-- The module-level `export const wsManager = WebSocketManager.getInstance()`
that runs at load time, starting from an empty instance slot and no config
argument. -/
def moduleLoad : WebSocketManager × Option WebSocketManager :=
  getInstance none {}

/-- `useWebSocket(config?)` calls `getInstance(config)` against the current
slot and returns the instance. -/
def useWebSocket (inst : Option WebSocketManager) (config : PartialConfig) :
    WebSocketManager :=
  (getInstance inst config).fst

/-- Task type enum from `types/index.ts`. -/
inductive TaskType
  | writing
  | analysis
  | research
  | consistencyCheck
deriving DecidableEq, Repr

/-- Task status enum from `types/index.ts`. -/
inductive TaskStatus
  | pending
  | processing
  | completed
  | failed
deriving DecidableEq, Repr

/-- The `Task` interface from `types/index.ts`; `Date` values are modelled
as natural-number timestamps. -/
structure Task where
  id : String
  taskType : TaskType
  status : TaskStatus
  progress : Nat
  description : String
  startedAt : Option Nat := none
  completedAt : Option Nat := none
deriving DecidableEq, Repr

/-- The `ProcessingStatus` interface from `types/index.ts`. -/
structure ProcessingStatus where
  activeAgents : List String
  currentTasks : List Task
  queueLength : Nat
  estimatedCompletion : Option Nat
deriving DecidableEq, Repr

/-- The `task-update` handler of `WebSocketProvider`: the functional update
passed to `setProcessingStatus`.  With no previous status the delta is
dropped; otherwise every task with a matching id is replaced by the incoming
task, and if no task matched, the incoming task is appended. -/
def applyTaskUpdate (task : Task) : Option ProcessingStatus → Option ProcessingStatus
  | none => none
  | some prev =>
      let updatedTasks := prev.currentTasks.map fun t =>
        if t.id == task.id then task else t
      let updatedTasks' :=
        if (updatedTasks.find? fun t => t.id == task.id).isSome then updatedTasks
        else updatedTasks ++ [task]
      some { prev with currentTasks := updatedTasks' }

/-- The `processing-status` handler of `WebSocketProvider`: a full snapshot
replaces the status wholesale. -/
def applySnapshot (s : ProcessingStatus) : Option ProcessingStatus → Option ProcessingStatus :=
  fun _ => some s

/-- The two event streams feeding the status aggregator. -/
inductive AggEvent
  | snapshot (s : ProcessingStatus)
  | taskUpdate (t : Task)
deriving DecidableEq, Repr

/-- Whether an aggregator event is a full snapshot. -/
def AggEvent.isSnapshot : AggEvent → Bool
  | AggEvent.snapshot _ => true
  | AggEvent.taskUpdate _ => false

/-- Folding one aggregator event into the exposed status. -/
def aggStep (st : Option ProcessingStatus) : AggEvent → Option ProcessingStatus
  | AggEvent.snapshot s => applySnapshot s st
  | AggEvent.taskUpdate t => applyTaskUpdate t st

/-- Folding a sequence of aggregator events. -/
def aggRun (st : Option ProcessingStatus) : List AggEvent → Option ProcessingStatus
  | [] => st
  | e :: es => aggRun (aggStep st e) es

/-- The reconnection delay computed at line 245:
`reconnectInterval * reconnectAttempts`, for a given attempt number. -/
def reconnectDelay (c : WebSocketConfig) (attempt : Nat) : Nat :=
  c.reconnectInterval * attempt

/-- The connection invariant relating the two state views: the socket
readyState is OPEN exactly when the manager reports `connected`.  It holds in
every reachable state. -/
def ConnInv (m : WebSocketManager) : Prop :=
  socketOpen m = true ↔ m.connectionState = ConnectionState.connected

/-- Whether the current socket is (at least) past its handshake. -/
def wsNotConnecting (m : WebSocketManager) : Bool :=
  match m.ws with
  | some s => s.readyState != ReadyState.connecting
  | none => true

/-- A manager from which no automatic reconnection can ever start again
without an explicit `connect()`: no reconnect timer is pending, and either
the attempt limit is exhausted with no socket still handshaking, or there is
no socket at all (after a disconnect). -/
def Exhausted (m : WebSocketManager) : Prop :=
  m.reconnectTimer = none ∧
    ((m.config.maxReconnectAttempts ≤ m.reconnectAttempts
        ∧ wsNotConnecting m = true)
      ∨ m.ws = none)

/-- Concrete fixture: a manager whose attempt limit is exhausted (the final
error has fired, the socket is failing, no timer pending). -/
def exhaustedSample : WebSocketManager :=
  { ws := some { id := 0, url := "ws://localhost:8000/ws",
                 readyState := ReadyState.closing }
    config := DEFAULT_CONFIG
    connectionState := ConnectionState.error
    reconnectAttempts := 5
    reconnectTimer := none
    heartbeatTimer := false
    nextSocketId := 1 }

/-- Concrete fixture: a manager with an OPEN socket in the `connected`
state. -/
def connectedSample : WebSocketManager :=
  { ws := some { id := 0, url := "ws://localhost:8000/ws",
                 readyState := ReadyState.opened }
    config := DEFAULT_CONFIG
    connectionState := ConnectionState.connected
    reconnectAttempts := 0
    reconnectTimer := none
    heartbeatTimer := true
    nextSocketId := 1 }

/-- Concrete fixture: a manager waiting out its first reconnect delay after
an abnormal close, with a stored auth token. -/
def reconnectingSample : WebSocketManager :=
  { ws := some { id := 0, url := "ws://localhost:8000/ws?token=A",
                 readyState := ReadyState.closed }
    config := { DEFAULT_CONFIG with authToken := "A" }
    connectionState := ConnectionState.reconnecting
    reconnectAttempts := 1
    reconnectTimer := some 3000
    heartbeatTimer := false
    nextSocketId := 1 }

/-- Concrete fixture: the task `T1(id=a, progress=10)` of the spec's merge
example. -/
def taskA10 : Task :=
  { id := "a", taskType := TaskType.writing, status := TaskStatus.processing,
    progress := 10, description := "draft chapter" }

/-- Concrete fixture: the `task-update` payload `id=a, progress=50`. -/
def taskA50 : Task :=
  { taskA10 with progress := 50 }

/-- Concrete fixture: a task with the unseen id `b`. -/
def taskB : Task :=
  { id := "b", taskType := TaskType.research, status := TaskStatus.pending,
    progress := 0, description := "background research" }

/-- Concrete fixture: a snapshot holding only `taskA10`. -/
def statusSample : ProcessingStatus :=
  { activeAgents := ["writer"], currentTasks := [taskA10], queueLength := 2,
    estimatedCompletion := none }

/-! Shape lemmas for the manager operations. -/

theorem setConnectionState_fst (m : WebSocketManager) (s : ConnectionState) :
    (setConnectionState m s).fst = { m with connectionState := s } := by
  unfold setConnectionState
  split
  · rename_i h
    rw [← h]
  · rfl

theorem connect_of_open (tok : String) (ok : Bool) (m : WebSocketManager)
    (h : socketOpen m = true) : connect tok ok m = (m, []) := by
  unfold connect
  rw [h]
  rfl

theorem connect_fst_of_not_open_tok (tok : String) (m : WebSocketManager)
    (h : socketOpen m = false) (ht : tok ≠ "") :
    (connect tok true m).fst =
      { m with
          config := { m.config with authToken := tok }
          connectionState := ConnectionState.connecting
          reconnectTimer := none
          ws := some
            { id := m.nextSocketId
              url := wsUrl { m.config with authToken := tok }
              readyState := ReadyState.connecting }
          nextSocketId := m.nextSocketId + 1 } := by
  unfold connect
  rw [h]
  simp only [Bool.false_eq_true, if_false, if_pos ht, if_true, setConnectionState_fst,
    clearReconnectTimer]

theorem connect_fst_of_not_open_empty (m : WebSocketManager)
    (h : socketOpen m = false) :
    (connect "" true m).fst =
      { m with
          connectionState := ConnectionState.connecting
          reconnectTimer := none
          ws := some
            { id := m.nextSocketId
              url := wsUrl m.config
              readyState := ReadyState.connecting }
          nextSocketId := m.nextSocketId + 1 } := by
  unfold connect
  rw [h]
  simp only [Bool.false_eq_true, if_false, ne_eq, not_true_eq_false, if_true,
    setConnectionState_fst, clearReconnectTimer]

theorem connect_fst_of_not_open_err_tok (tok : String) (m : WebSocketManager)
    (h : socketOpen m = false) (ht : tok ≠ "") :
    (connect tok false m).fst =
      (scheduleReconnect
        { m with
            config := { m.config with authToken := tok }
            connectionState := ConnectionState.error
            reconnectTimer := none }).fst := by
  unfold connect
  rw [h]
  simp only [Bool.false_eq_true, if_false, if_pos ht, setConnectionState_fst,
    clearReconnectTimer]

theorem connect_fst_of_not_open_err_empty (m : WebSocketManager)
    (h : socketOpen m = false) :
    (connect "" false m).fst =
      (scheduleReconnect
        { m with
            connectionState := ConnectionState.error
            reconnectTimer := none }).fst := by
  unfold connect
  rw [h]
  simp only [Bool.false_eq_true, if_false, ne_eq, not_true_eq_false,
    setConnectionState_fst, clearReconnectTimer]

theorem scheduleReconnect_fst_of_ge (m : WebSocketManager)
    (h : m.config.maxReconnectAttempts ≤ m.reconnectAttempts) :
    (scheduleReconnect m).fst = { m with connectionState := ConnectionState.error } := by
  unfold scheduleReconnect
  rw [if_pos h, setConnectionState_fst]

theorem scheduleReconnect_fst_of_lt (m : WebSocketManager)
    (h : m.reconnectAttempts < m.config.maxReconnectAttempts) :
    (scheduleReconnect m).fst =
      { m with
          reconnectAttempts := m.reconnectAttempts + 1
          connectionState := ConnectionState.reconnecting
          reconnectTimer :=
            some (m.config.reconnectInterval * (m.reconnectAttempts + 1)) } := by
  unfold scheduleReconnect
  rw [if_neg (Nat.not_le.mpr h)]
  simp only [setConnectionState_fst]

theorem disconnect_fst (m : WebSocketManager) :
    (disconnect m).fst =
      { m with
          ws := none
          connectionState := ConnectionState.disconnected
          reconnectAttempts := 0
          reconnectTimer := none
          heartbeatTimer := false } := by
  unfold disconnect clearHeartbeatTimer clearReconnectTimer
  simp only [setConnectionState_fst]

theorem onOpen_fst (m : WebSocketManager) :
    (onOpen m).fst =
      { m with
          ws := m.ws.map fun s => { s with readyState := ReadyState.opened }
          connectionState := ConnectionState.connected
          reconnectAttempts := 0
          heartbeatTimer := true } := by
  unfold onOpen startHeartbeat clearHeartbeatTimer
  simp only [setConnectionState_fst]

theorem onClose_fst_of_normal (m : WebSocketManager) :
    (onClose 1000 m).fst =
      { m with
          ws := m.ws.map fun s => { s with readyState := ReadyState.closed }
          heartbeatTimer := false
          connectionState := ConnectionState.disconnected } := by
  unfold onClose clearHeartbeatTimer
  simp only [ne_eq, not_true_eq_false, if_false, setConnectionState_fst]

theorem onClose_fst_of_abnormal (code : Nat) (m : WebSocketManager)
    (h : code ≠ 1000) :
    (onClose code m).fst =
      (scheduleReconnect
        { m with
            ws := m.ws.map fun s => { s with readyState := ReadyState.closed }
            heartbeatTimer := false
            connectionState := ConnectionState.disconnected }).fst := by
  unfold onClose clearHeartbeatTimer
  rw [if_pos h]
  simp only [setConnectionState_fst]

theorem onError_fst (m : WebSocketManager) :
    (onError m).fst =
      { m with
          ws := m.ws.map fun s => { s with readyState := ReadyState.closing }
          connectionState := ConnectionState.error } := by
  unfold onError
  simp only [setConnectionState_fst]

theorem send_manager_eq (m : WebSocketManager) : (send m).manager = m := by
  unfold send
  split <;> rfl

/-- Fields `scheduleReconnect` never touches. -/
theorem scheduleReconnect_fst_frame (m : WebSocketManager) :
    (scheduleReconnect m).fst.ws = m.ws
    ∧ (scheduleReconnect m).fst.config = m.config
    ∧ (scheduleReconnect m).fst.heartbeatTimer = m.heartbeatTimer
    ∧ (scheduleReconnect m).fst.nextSocketId = m.nextSocketId := by
  rcases le_or_lt m.config.maxReconnectAttempts m.reconnectAttempts with h | h
  · rw [scheduleReconnect_fst_of_ge m h]
    exact ⟨rfl, rfl, rfl, rfl⟩
  · rw [scheduleReconnect_fst_of_lt m h]
    exact ⟨rfl, rfl, rfl, rfl⟩

/-- How `scheduleReconnect` treats the attempt counter: either the limit was
reached (state `error`, nothing changed, no timer set), or the counter
increments by one, the limit was not yet reached, the state becomes
`reconnecting` and the timer is set to the linear-backoff delay. -/
theorem scheduleReconnect_cases (m : WebSocketManager) :
    ((scheduleReconnect m).fst.reconnectAttempts = m.reconnectAttempts
      ∧ m.config.maxReconnectAttempts ≤ m.reconnectAttempts
      ∧ (scheduleReconnect m).fst.connectionState = ConnectionState.error
      ∧ (scheduleReconnect m).fst.reconnectTimer = m.reconnectTimer)
    ∨ ((scheduleReconnect m).fst.reconnectAttempts = m.reconnectAttempts + 1
      ∧ m.reconnectAttempts < m.config.maxReconnectAttempts
      ∧ (scheduleReconnect m).fst.connectionState = ConnectionState.reconnecting
      ∧ (scheduleReconnect m).fst.reconnectTimer
          = some (reconnectDelay m.config (m.reconnectAttempts + 1))) := by
  rcases le_or_lt m.config.maxReconnectAttempts m.reconnectAttempts with h | h
  · left
    rw [scheduleReconnect_fst_of_ge m h]
    exact ⟨rfl, h, rfl, rfl⟩
  · right
    rw [scheduleReconnect_fst_of_lt m h]
    exact ⟨rfl, h, rfl, rfl⟩

theorem scheduleReconnect_state_ne_connected (m : WebSocketManager) :
    (scheduleReconnect m).fst.connectionState ≠ ConnectionState.connected := by
  rcases scheduleReconnect_cases m with ⟨_, _, h, _⟩ | ⟨_, _, h, _⟩ <;>
    simp [h]

/-! The reachability invariant tying the manager state to the socket:
in every reachable manager state, the socket readyState is OPEN exactly when
the reported connection state is `connected`. -/

theorem connInv_of_parts (m : WebSocketManager) (h1 : socketOpen m = false)
    (h2 : m.connectionState ≠ ConnectionState.connected) : ConnInv m := by
  constructor
  · intro h
    rw [h1] at h
    cases h
  · intro h
    exact absurd h h2

theorem socketOpen_congr (m1 m2 : WebSocketManager) (h : m1.ws = m2.ws) :
    socketOpen m1 = socketOpen m2 := by
  unfold socketOpen
  rw [h]

theorem socketOpen_map_closed (m : WebSocketManager) (r : ReadyState)
    (hr : r ≠ ReadyState.opened) :
    socketOpen { m with ws := m.ws.map fun s => { s with readyState := r } }
      = false := by
  unfold socketOpen
  cases m.ws <;> simp [hr]

theorem connInv_scheduleReconnect (m : WebSocketManager)
    (h1 : socketOpen m = false) : ConnInv (scheduleReconnect m).fst := by
  apply connInv_of_parts
  · rw [socketOpen_congr _ m (scheduleReconnect_fst_frame m).1]
    exact h1
  · exact scheduleReconnect_state_ne_connected m

theorem connInv_connect (tok : String) (ok : Bool) (m : WebSocketManager)
    (h : ConnInv m) : ConnInv (connect tok ok m).fst := by
  by_cases ho : socketOpen m = true
  · rw [connect_of_open tok ok m ho]
    exact h
  · have ho' : socketOpen m = false := by
      revert ho
      cases socketOpen m <;> simp
    cases ok
    · by_cases ht : tok = ""
      · subst ht
        rw [connect_fst_of_not_open_err_empty m ho']
        exact connInv_scheduleReconnect _ ho'
      · rw [connect_fst_of_not_open_err_tok tok m ho' ht]
        exact connInv_scheduleReconnect _ ho'
    · by_cases ht : tok = ""
      · subst ht
        rw [connect_fst_of_not_open_empty m ho']
        apply connInv_of_parts
        · unfold socketOpen
          simp
        · simp
      · rw [connect_fst_of_not_open_tok tok m ho' ht]
        apply connInv_of_parts
        · unfold socketOpen
          simp
        · simp

theorem connInv_stepM (m : WebSocketManager) (e : Event)
    (hv : validEvent m e = true) (h : ConnInv m) : ConnInv (stepM m e) := by
  cases e with
  | connectCall tok ok => exact connInv_connect tok ok m h
  | disconnectCall =>
      show ConnInv (disconnect m).fst
      rw [disconnect_fst m]
      apply connInv_of_parts
      · unfold socketOpen
        simp
      · simp
  | sendCall =>
      show ConnInv (send m).manager
      rw [send_manager_eq m]
      exact h
  | wsOpen =>
      show ConnInv (onOpen m).fst
      rw [onOpen_fst m]
      unfold validEvent at hv
      unfold ConnInv socketOpen
      match hws : m.ws with
      | some s => simp [hws]
      | none => rw [hws] at hv; cases hv
  | wsClose code =>
      show ConnInv (onClose code m).fst
      by_cases hc : code = 1000
      · subst hc
        rw [onClose_fst_of_normal m]
        apply connInv_of_parts
        · exact socketOpen_map_closed m ReadyState.closed (by simp)
        · simp
      · rw [onClose_fst_of_abnormal code m hc]
        exact connInv_scheduleReconnect _
          (socketOpen_map_closed m ReadyState.closed (by simp))
  | wsError =>
      show ConnInv (onError m).fst
      rw [onError_fst m]
      apply connInv_of_parts
      · exact socketOpen_map_closed m ReadyState.closing (by simp)
      · simp
  | timerFire ok =>
      show ConnInv (if m.reconnectTimer.isSome
          then (connect "" ok (clearReconnectTimer m)).fst else m)
      split
      · apply connInv_connect
        exact h
      · exact h
  | heartbeatTick => exact h

theorem connInv_run (m : WebSocketManager) (es : List Event)
    (hv : validTrace m es = true) (h : ConnInv m) : ConnInv (run m es) := by
  induction es generalizing m with
  | nil => exact h
  | cons e es ih =>
      unfold validTrace at hv
      rw [Bool.and_eq_true] at hv
      obtain ⟨hv1, hv2⟩ := hv
      exact ih (stepM m e) hv2 (connInv_stepM m e hv1 h)

theorem connInv_mkManager (c : PartialConfig) : ConnInv (mkManager c) := by
  apply connInv_of_parts <;> simp [mkManager, socketOpen]

/-! How events move the reconnect attempt counter. -/

theorem scheduleReconnect_attempts_max (m : WebSocketManager) :
    ((scheduleReconnect m).fst.reconnectAttempts = m.reconnectAttempts
      ∨ ((scheduleReconnect m).fst.reconnectAttempts = m.reconnectAttempts + 1
          ∧ m.reconnectAttempts < m.config.maxReconnectAttempts
          ∧ (scheduleReconnect m).fst.connectionState = ConnectionState.reconnecting))
    ∧ (scheduleReconnect m).fst.config.maxReconnectAttempts
        = m.config.maxReconnectAttempts := by
  refine ⟨?_, by rw [(scheduleReconnect_fst_frame m).2.1]⟩
  rcases scheduleReconnect_cases m with ⟨h1, _, _, _⟩ | ⟨h1, h2, h3, _⟩
  · exact Or.inl h1
  · exact Or.inr ⟨h1, h2, h3⟩

theorem connect_attempts_cases (tok : String) (ok : Bool) (m : WebSocketManager) :
    ((connect tok ok m).fst.reconnectAttempts = m.reconnectAttempts
      ∨ ((connect tok ok m).fst.reconnectAttempts = m.reconnectAttempts + 1
          ∧ m.reconnectAttempts < m.config.maxReconnectAttempts
          ∧ (connect tok ok m).fst.connectionState = ConnectionState.reconnecting))
    ∧ (connect tok ok m).fst.config.maxReconnectAttempts
        = m.config.maxReconnectAttempts := by
  by_cases ho : socketOpen m = true
  · rw [connect_of_open tok ok m ho]
    exact ⟨Or.inl rfl, rfl⟩
  · have ho' : socketOpen m = false := by
      revert ho
      cases socketOpen m <;> simp
    cases ok
    · by_cases ht : tok = ""
      · subst ht
        rw [connect_fst_of_not_open_err_empty m ho']
        exact scheduleReconnect_attempts_max _
      · rw [connect_fst_of_not_open_err_tok tok m ho' ht]
        exact scheduleReconnect_attempts_max _
    · by_cases ht : tok = ""
      · subst ht
        rw [connect_fst_of_not_open_empty m ho']
        exact ⟨Or.inl rfl, rfl⟩
      · rw [connect_fst_of_not_open_tok tok m ho' ht]
        exact ⟨Or.inl rfl, rfl⟩

/-- Single-event accounting of the reconnect attempt counter: every event
leaves it unchanged, resets it to 0 (exactly the socket-open and disconnect
events), or increments it by one while scheduling a reconnect, which requires
the limit not to be reached yet and ends in the `reconnecting` state.  No
event changes the configured attempt limit. -/
theorem stepM_attempts_cases (m : WebSocketManager) (e : Event) :
    ((stepM m e).reconnectAttempts = m.reconnectAttempts
      ∨ ((stepM m e).reconnectAttempts = 0
          ∧ (e = Event.wsOpen ∨ e = Event.disconnectCall))
      ∨ ((stepM m e).reconnectAttempts = m.reconnectAttempts + 1
          ∧ m.reconnectAttempts < m.config.maxReconnectAttempts
          ∧ (stepM m e).connectionState = ConnectionState.reconnecting))
    ∧ (stepM m e).config.maxReconnectAttempts
        = m.config.maxReconnectAttempts := by
  cases e with
  | connectCall tok ok =>
      rcases connect_attempts_cases tok ok m with ⟨h1 | h1, h2⟩
      · exact ⟨Or.inl h1, h2⟩
      · exact ⟨Or.inr (Or.inr h1), h2⟩
  | disconnectCall =>
      have he : stepM m Event.disconnectCall = (disconnect m).fst := rfl
      rw [he, disconnect_fst m]
      exact ⟨Or.inr (Or.inl ⟨rfl, Or.inr rfl⟩), rfl⟩
  | sendCall =>
      have he : stepM m Event.sendCall = (send m).manager := rfl
      rw [he, send_manager_eq m]
      exact ⟨Or.inl rfl, rfl⟩
  | wsOpen =>
      have he : stepM m Event.wsOpen = (onOpen m).fst := rfl
      rw [he, onOpen_fst m]
      exact ⟨Or.inr (Or.inl ⟨rfl, Or.inl rfl⟩), rfl⟩
  | wsClose code =>
      have he : stepM m (Event.wsClose code) = (onClose code m).fst := rfl
      rw [he]
      by_cases hc : code = 1000
      · subst hc
        rw [onClose_fst_of_normal m]
        exact ⟨Or.inl rfl, rfl⟩
      · rw [onClose_fst_of_abnormal code m hc]
        rcases scheduleReconnect_attempts_max
            { m with
                ws := m.ws.map fun s => { s with readyState := ReadyState.closed }
                heartbeatTimer := false
                connectionState := ConnectionState.disconnected }
          with ⟨h1 | h1, h2⟩
        · exact ⟨Or.inl h1, h2⟩
        · exact ⟨Or.inr (Or.inr h1), h2⟩
  | wsError =>
      have he : stepM m Event.wsError = (onError m).fst := rfl
      rw [he, onError_fst m]
      exact ⟨Or.inl rfl, rfl⟩
  | timerFire ok =>
      by_cases ht : m.reconnectTimer.isSome
      · have h0 : stepM m (Event.timerFire ok)
            = if m.reconnectTimer.isSome
              then (connect "" ok (clearReconnectTimer m)).fst else m := rfl
        rw [h0, if_pos ht]
        rcases connect_attempts_cases "" ok (clearReconnectTimer m) with ⟨h1 | h1, h2⟩
        · exact ⟨Or.inl h1, h2⟩
        · exact ⟨Or.inr (Or.inr h1), h2⟩
      · have h0 : stepM m (Event.timerFire ok)
            = if m.reconnectTimer.isSome
              then (connect "" ok (clearReconnectTimer m)).fst else m := rfl
        rw [h0, if_neg ht]
        exact ⟨Or.inl rfl, rfl⟩
  | heartbeatTick => exact ⟨Or.inl rfl, rfl⟩

/-- The attempt counter never exceeds the configured limit, along any run. -/
theorem run_attempts_le (m : WebSocketManager) (es : List Event)
    (h : m.reconnectAttempts ≤ m.config.maxReconnectAttempts) :
    (run m es).reconnectAttempts ≤ (run m es).config.maxReconnectAttempts := by
  induction es generalizing m with
  | nil => exact h
  | cons e es ih =>
      show (run (stepM m e) es).reconnectAttempts ≤ _
      apply ih
      rcases stepM_attempts_cases m e with ⟨h1 | ⟨h1, _⟩ | ⟨h1, h2, _⟩, hc⟩
      · rw [h1, hc]
        exact h
      · rw [h1]
        exact Nat.zero_le _
      · rw [h1, hc]
        exact h2

theorem exhausted_stepM (m : WebSocketManager) (e : Event)
    (hv : validEvent m e = true) (hne : isConnectCall e = false)
    (h : Exhausted m) : Exhausted (stepM m e) := by
  obtain ⟨htimer, hrest⟩ := h
  cases e with
  | connectCall tok ok => cases hne
  | disconnectCall =>
      have he : stepM m Event.disconnectCall = (disconnect m).fst := rfl
      rw [he, disconnect_fst m]
      exact ⟨rfl, Or.inr rfl⟩
  | sendCall =>
      have he : stepM m Event.sendCall = (send m).manager := rfl
      rw [he, send_manager_eq m]
      exact ⟨htimer, hrest⟩
  | wsOpen =>
      exfalso
      unfold validEvent at hv
      rcases hrest with ⟨_, hnc⟩ | hnone
      · unfold wsNotConnecting at hnc
        cases hws : m.ws with
        | none => rw [hws] at hv; cases hv
        | some s =>
            rw [hws] at hv hnc
            simp at hv hnc
            exact hnc hv
      · rw [hnone] at hv
        cases hv
  | wsClose code =>
      have he : stepM m (Event.wsClose code) = (onClose code m).fst := rfl
      rcases hrest with ⟨hmax, _⟩ | hnone
      · by_cases hc : code = 1000
        · subst hc
          rw [he, onClose_fst_of_normal m]
          refine ⟨htimer, Or.inl ⟨hmax, ?_⟩⟩
          unfold wsNotConnecting
          cases m.ws <;> simp
        · rw [he, onClose_fst_of_abnormal code m hc]
          rw [scheduleReconnect_fst_of_ge
              { m with
                  ws := m.ws.map fun s => { s with readyState := ReadyState.closed }
                  heartbeatTimer := false
                  connectionState := ConnectionState.disconnected } hmax]
          refine ⟨htimer, Or.inl ⟨hmax, ?_⟩⟩
          unfold wsNotConnecting
          cases m.ws <;> simp
      · exfalso
        unfold validEvent at hv
        rw [hnone] at hv
        cases hv
  | wsError =>
      have he : stepM m Event.wsError = (onError m).fst := rfl
      rw [he, onError_fst m]
      rcases hrest with ⟨hmax, _⟩ | hnone
      · refine ⟨htimer, Or.inl ⟨hmax, ?_⟩⟩
        unfold wsNotConnecting
        cases m.ws <;> simp
      · refine ⟨htimer, Or.inr ?_⟩
        rw [hnone]
        rfl
  | timerFire ok =>
      exfalso
      unfold validEvent at hv
      rw [htimer] at hv
      cases hv
  | heartbeatTick => exact ⟨htimer, hrest⟩

/-- Exhaustion is preserved by every valid trace that contains no explicit
`connect()` call. -/
theorem exhausted_run (m : WebSocketManager) (es : List Event)
    (hv : validTrace m es = true)
    (hnc : ∀ e ∈ es, isConnectCall e = false)
    (h : Exhausted m) : Exhausted (run m es) := by
  induction es generalizing m with
  | nil => exact h
  | cons e es ih =>
      unfold validTrace at hv
      rw [Bool.and_eq_true] at hv
      obtain ⟨hv1, hv2⟩ := hv
      exact ih (stepM m e) hv2
        (fun x hx => hnc x (List.mem_cons_of_mem e hx))
        (exhausted_stepM m e hv1 (hnc e (List.mem_cons_self e es)) h)

/-! List lemmas about the task-update merge. -/

theorem map_update_of_no_match (task : Task) (l : List Task)
    (h : ∀ t ∈ l, t.id ≠ task.id) :
    (l.map fun t => if t.id == task.id then task else t) = l := by
  induction l with
  | nil => rfl
  | cons a l ih =>
      have ha : (a.id == task.id) = false := by
        have := h a (List.mem_cons_self a l)
        simp [this]
      simp only [List.map_cons, ha, Bool.false_eq_true, if_false]
      rw [ih fun t ht => h t (List.mem_cons_of_mem a ht)]

theorem map_update_of_uniq (task : Task) (l : List Task) (i : Nat)
    (h : i < l.length)
    (hpw : l.Pairwise fun a b => a.id ≠ b.id)
    (hid : (l.get ⟨i, h⟩).id = task.id) :
    (l.map fun t => if t.id == task.id then task else t) = l.set i task := by
  induction l generalizing i with
  | nil => cases h
  | cons a l ih =>
      rw [List.pairwise_cons] at hpw
      obtain ⟨hHead, hTail⟩ := hpw
      cases i with
      | zero =>
          have hida : a.id = task.id := hid
          have ha : (a.id == task.id) = true := by simp [hida]
          simp only [List.map_cons, ha, if_true, List.set]
          rw [map_update_of_no_match task l fun t ht => by
            have := hHead t ht
            rw [hida] at this
            exact fun hcontra => this hcontra.symm]
      | succ i =>
          have h' : i < l.length := Nat.lt_of_succ_lt_succ h
          have hidl : (l.get ⟨i, h'⟩).id = task.id := hid
          have ha : (a.id == task.id) = false := by
            have := hHead _ (l.get_mem i h')
            rw [hidl] at this
            simp [this]
          simp only [List.map_cons, ha, Bool.false_eq_true, if_false, List.set]
          rw [ih i h' hTail hidl]

theorem filter_id_nil_of_no_match (task : Task) (l : List Task)
    (h : ∀ t ∈ l, t.id ≠ task.id) :
    (l.filter fun t => t.id == task.id) = [] := by
  induction l with
  | nil => rfl
  | cons a l ih =>
      have ha : (a.id == task.id) = false := by
        have := h a (List.mem_cons_self a l)
        simp [this]
      rw [List.filter_cons_of_neg (by simp [ha])]
      exact ih fun t ht => h t (List.mem_cons_of_mem a ht)

theorem filter_set_length_one (task : Task) (l : List Task) (i : Nat)
    (h : i < l.length)
    (hpw : l.Pairwise fun a b => a.id ≠ b.id)
    (hid : (l.get ⟨i, h⟩).id = task.id) :
    ((l.set i task).filter fun t => t.id == task.id).length = 1 := by
  induction l generalizing i with
  | nil => cases h
  | cons a l ih =>
      rw [List.pairwise_cons] at hpw
      obtain ⟨hHead, hTail⟩ := hpw
      cases i with
      | zero =>
          have hida : a.id = task.id := hid
          show ((task :: l).filter fun t => t.id == task.id).length = 1
          rw [List.filter_cons_of_pos (by simp)]
          rw [filter_id_nil_of_no_match task l fun t ht => by
            have := hHead t ht
            rw [hida] at this
            exact fun hcontra => this hcontra.symm]
          rfl
      | succ i =>
          have h' : i < l.length := Nat.lt_of_succ_lt_succ h
          have hidl : (l.get ⟨i, h'⟩).id = task.id := hid
          have ha : (a.id == task.id) = false := by
            have := hHead _ (l.get_mem i h')
            rw [hidl] at this
            simp [this]
          show ((a :: l.set i task).filter fun t => t.id == task.id).length = 1
          rw [List.filter_cons_of_neg (by simp [ha])]
          exact ih i h' hTail hidl

theorem find_isSome_set (task : Task) (l : List Task) (i : Nat)
    (h : i < l.length) :
    ((l.set i task).find? fun t => t.id == task.id).isSome = true := by
  induction l generalizing i with
  | nil => cases h
  | cons a l ih =>
      cases i with
      | zero =>
          show ((task :: l).find? fun t => t.id == task.id).isSome = true
          rw [List.find?_cons_of_pos l (by simp)]
          rfl
      | succ i =>
          have h' : i < l.length := Nat.lt_of_succ_lt_succ h
          show ((a :: l.set i task).find? fun t => t.id == task.id).isSome = true
          cases hpa : (a.id == task.id) with
          | true =>
              rw [List.find?_cons_of_pos (l.set i task) hpa]
              rfl
          | false =>
              rw [List.find?_cons_of_neg (l.set i task) (by simp [hpa])]
              exact ih i h'

theorem find_none_of_no_match (task : Task) (l : List Task)
    (h : ∀ t ∈ l, t.id ≠ task.id) :
    (l.find? fun t => t.id == task.id) = none := by
  induction l with
  | nil => rfl
  | cons a l ih =>
      have ha : (a.id == task.id) = false := by
        have := h a (List.mem_cons_self a l)
        simp [this]
      rw [List.find?_cons_of_neg l (by simp [ha])]
      exact ih fun t ht => h t (List.mem_cons_of_mem a ht)

/-! Claims. -/

/-- C1 counterexample: the claim "calling `connect()` while the state is
`Connecting` or `Reconnecting` does not spawn a second connection attempt (no
second socket is opened and the existing attempt is not replaced)" is false.
In the reachable state produced by one `connect()` call the manager is
`Connecting`, yet a second `connect()` constructs a second socket (the
`new WebSocket` counter increments) and replaces the in-flight one: the guard
at lines 67-69 only checks `readyState === OPEN`, not the manager state. -/
theorem C1_cex :
    (run (mkManager {}) [Event.connectCall "" true]).connectionState
        = ConnectionState.connecting
    ∧ (stepM (run (mkManager {}) [Event.connectCall "" true])
          (Event.connectCall "" true)).nextSocketId
        = (run (mkManager {}) [Event.connectCall "" true]).nextSocketId + 1
    ∧ (stepM (run (mkManager {}) [Event.connectCall "" true])
          (Event.connectCall "" true)).ws
        ≠ (run (mkManager {}) [Event.connectCall "" true]).ws
    ∧ validTrace (mkManager {})
        [Event.connectCall "" true, Event.connectCall "" true] = true := by
  decide

/-- C1 (amended): `connect()` is a no-op exactly when the underlying socket
is OPEN.  In every reachable state in which the manager reports `Connected`
the socket is OPEN, so `connect()` while `Connected` is a no-op (it returns
the state unchanged and emits no notification); but whenever the socket is
not OPEN — in particular while `Connecting` or `Reconnecting` — `connect()`
proceeds: it clears any pending reconnect timer and constructs a fresh
socket, replacing the current attempt. -/
theorem C1_corrected :
    (∀ (c : PartialConfig) (es : List Event) (tok : String) (ok : Bool),
        validTrace (mkManager c) es = true →
        (run (mkManager c) es).connectionState = ConnectionState.connected →
        connect tok ok (run (mkManager c) es) = (run (mkManager c) es, []))
    ∧ (∀ (m : WebSocketManager) (tok : String),
        socketOpen m = false →
        (connect tok true m).fst.nextSocketId = m.nextSocketId + 1
        ∧ (connect tok true m).fst.reconnectTimer = none
        ∧ (connect tok true m).fst.connectionState = ConnectionState.connecting) := by
  constructor
  · intro c es tok ok hv hc
    apply connect_of_open
    exact (connInv_run (mkManager c) es hv (connInv_mkManager c)).mpr hc
  · intro m tok ho
    by_cases ht : tok = ""
    · subst ht
      rw [connect_fst_of_not_open_empty m ho]
      exact ⟨rfl, rfl, rfl⟩
    · rw [connect_fst_of_not_open_tok tok m ho ht]
      exact ⟨rfl, rfl, rfl⟩

/-- C1 witness: the no-op case on a concrete connected run, and the
new-socket case on the freshly constructed manager. -/
theorem C1_wit :
    connect "x" true (run (mkManager {}) [Event.connectCall "t" true, Event.wsOpen])
        = (run (mkManager {}) [Event.connectCall "t" true, Event.wsOpen], [])
    ∧ (connect "x" true (mkManager {})).fst.nextSocketId
        = (mkManager {}).nextSocketId + 1 :=
  ⟨C1_corrected.1 {} [Event.connectCall "t" true, Event.wsOpen] "x" true
      (by decide) (by decide),
   (C1_corrected.2 (mkManager {}) "x" (by decide)).1⟩

/-- C2 counterexample: the claim "the reconnect attempt counter is reset to 0
exactly when the connection successfully reaches the Connected state ... no
other operation or transition changes it" is false: `disconnect()` (line 103)
also resets the counter to 0, while the state it reaches is `Disconnected`,
not `Connected`.  Shown on a reachable state with counter 1. -/
theorem C2_cex :
    (run (mkManager {}) [Event.connectCall "" false]).reconnectAttempts = 1
    ∧ (run (mkManager {}) [Event.connectCall "" false]).connectionState
        = ConnectionState.reconnecting
    ∧ (stepM (run (mkManager {}) [Event.connectCall "" false])
          Event.disconnectCall).reconnectAttempts = 0
    ∧ (stepM (run (mkManager {}) [Event.connectCall "" false])
          Event.disconnectCall).connectionState = ConnectionState.disconnected
    ∧ validTrace (mkManager {})
        [Event.connectCall "" false, Event.disconnectCall] = true := by
  decide

/-- C2 (amended): the reconnect attempt counter resets to 0 exactly on
reaching `Connected` (the socket-open event) and on an explicit
`disconnect()`; every other change is an increment by one performed while
scheduling a reconnect, which leaves the manager in `Reconnecting`; all
remaining events leave the counter unchanged.  Reaching `Connected` always
resets it. -/
theorem C2_corrected :
    (∀ (m : WebSocketManager) (e : Event),
        (stepM m e).reconnectAttempts = m.reconnectAttempts
        ∨ ((stepM m e).reconnectAttempts = 0
            ∧ (e = Event.wsOpen ∨ e = Event.disconnectCall))
        ∨ ((stepM m e).reconnectAttempts = m.reconnectAttempts + 1
            ∧ (stepM m e).connectionState = ConnectionState.reconnecting))
    ∧ (∀ m : WebSocketManager,
        (stepM m Event.wsOpen).reconnectAttempts = 0
        ∧ (stepM m Event.wsOpen).connectionState = ConnectionState.connected) := by
  constructor
  · intro m e
    rcases stepM_attempts_cases m e with ⟨h1 | ⟨h1, h2⟩ | ⟨h1, _, h3⟩, _⟩
    · exact Or.inl h1
    · exact Or.inr (Or.inl ⟨h1, h2⟩)
    · exact Or.inr (Or.inr ⟨h1, h3⟩)
  · intro m
    have he : stepM m Event.wsOpen = (onOpen m).fst := rfl
    rw [he, onOpen_fst m]
    exact ⟨rfl, rfl⟩

/-- C3: the reconnection delay is linear in the attempt count.  When a
reconnect is scheduled for attempt `n+1` (counter `n` before the increment),
the timer delay is `reconnectInterval * (n+1)`; and for every attempt
`n ≥ 1` the next delay is at least the current one (monotone non-decreasing
backoff). -/
theorem C3_confirmed :
    (∀ m : WebSocketManager,
        m.reconnectAttempts < m.config.maxReconnectAttempts →
        (scheduleReconnect m).fst.reconnectTimer
          = some (reconnectDelay m.config (m.reconnectAttempts + 1)))
    ∧ (∀ (c : WebSocketConfig) (n : Nat), 1 ≤ n →
        reconnectDelay c n ≤ reconnectDelay c (n + 1)) := by
  constructor
  · intro m h
    rw [scheduleReconnect_fst_of_lt m h]
    rfl
  · intro c n _
    show c.reconnectInterval * n ≤ c.reconnectInterval * (n + 1)
    exact Nat.mul_le_mul_left _ (Nat.le_succ n)

/-- C3 witness: first scheduled delay on a fresh default-config manager is
`3000 * 1`, and the second delay dominates the first. -/
theorem C3_wit :
    (scheduleReconnect (mkManager {})).fst.reconnectTimer
        = some (reconnectDelay (mkManager {}).config 1)
    ∧ reconnectDelay DEFAULT_CONFIG 1 ≤ reconnectDelay DEFAULT_CONFIG 2 :=
  ⟨C3_confirmed.1 (mkManager {}) (by decide),
   C3_confirmed.2 DEFAULT_CONFIG 1 (by decide)⟩

/-- C4: (1) the default attempt limit is 5; (2) starting at or below the
limit, the attempt counter never exceeds the configured limit along any run
of events; (3) invoking the reconnection policy at the limit moves the
manager to `error` and schedules nothing; (4) from any exhausted state, no
valid trace containing no explicit `connect()` call ever has a reconnect
timer pending again. -/
theorem C4_confirmed :
    DEFAULT_CONFIG.maxReconnectAttempts = 5
    ∧ (∀ (m : WebSocketManager) (es : List Event),
        m.reconnectAttempts ≤ m.config.maxReconnectAttempts →
        (run m es).reconnectAttempts ≤ (run m es).config.maxReconnectAttempts)
    ∧ (∀ m : WebSocketManager,
        m.config.maxReconnectAttempts ≤ m.reconnectAttempts →
        (scheduleReconnect m).fst.connectionState = ConnectionState.error
        ∧ (scheduleReconnect m).fst.reconnectTimer = m.reconnectTimer)
    ∧ (∀ (m : WebSocketManager) (es : List Event),
        Exhausted m → validTrace m es = true →
        (∀ e ∈ es, isConnectCall e = false) →
        (run m es).reconnectTimer = none) := by
  refine ⟨rfl, run_attempts_le, ?_, ?_⟩
  · intro m h
    rw [scheduleReconnect_fst_of_ge m h]
    exact ⟨rfl, rfl⟩
  · intro m es h hv hnc
    exact (exhausted_run m es hv hnc h).1

/-- C4 witness: the counter bound on a concrete failing run; the policy at
the exhausted fixture yields `error`; and a further abnormal close followed
by a send, from the exhausted fixture, leaves no timer pending. -/
theorem C4_wit :
    (run (mkManager {}) [Event.connectCall "" false]).reconnectAttempts
        ≤ (run (mkManager {}) [Event.connectCall "" false]).config.maxReconnectAttempts
    ∧ (scheduleReconnect exhaustedSample).fst.connectionState = ConnectionState.error
    ∧ (run exhaustedSample [Event.wsClose 1006, Event.sendCall]).reconnectTimer = none :=
  ⟨C4_confirmed.2.1 (mkManager {}) [Event.connectCall "" false] (by decide),
   (C4_confirmed.2.2.1 exhaustedSample (by decide)).1,
   C4_confirmed.2.2.2 exhaustedSample [Event.wsClose 1006, Event.sendCall]
     (by unfold Exhausted; decide) (by decide) (by decide)⟩

theorem setConnectionState_snd (m : WebSocketManager) (s : ConnectionState) :
    (setConnectionState m s).snd
      = if m.connectionState = s then [] else [s] := by
  unfold setConnectionState
  split <;> rfl


/-- C5: on a close event with the normal-closure code 1000 the manager ends
in `Disconnected`, no reconnect is scheduled (timer and counter untouched)
and the only notification is the `Disconnected` transition; on any other
close code the first notification is the `Disconnected` transition and the
reconnection policy is then evaluated: while attempts remain a reconnect is
scheduled (state `Reconnecting`, timer set to the backoff delay, counter
incremented), otherwise the manager ends in `error` with no timer set. -/
theorem C5_confirmed (m : WebSocketManager) (code : Nat) :
    (code = 1000 →
        (onClose code m).fst.connectionState = ConnectionState.disconnected
        ∧ (onClose code m).fst.reconnectTimer = m.reconnectTimer
        ∧ (onClose code m).fst.reconnectAttempts = m.reconnectAttempts
        ∧ (onClose code m).snd
            = if m.connectionState = ConnectionState.disconnected then []
              else [ConnectionState.disconnected])
    ∧ (code ≠ 1000 →
        (m.connectionState ≠ ConnectionState.disconnected →
            (onClose code m).snd.head? = some ConnectionState.disconnected)
        ∧ (m.reconnectAttempts < m.config.maxReconnectAttempts →
            (onClose code m).fst.connectionState = ConnectionState.reconnecting
            ∧ (onClose code m).fst.reconnectTimer
                = some (reconnectDelay m.config (m.reconnectAttempts + 1))
            ∧ (onClose code m).fst.reconnectAttempts = m.reconnectAttempts + 1)
        ∧ (m.config.maxReconnectAttempts ≤ m.reconnectAttempts →
            (onClose code m).fst.connectionState = ConnectionState.error
            ∧ (onClose code m).fst.reconnectTimer = m.reconnectTimer)) := by
  constructor
  · intro hc
    subst hc
    rw [onClose_fst_of_normal m]
    refine ⟨rfl, rfl, rfl, ?_⟩
    show (onClose 1000 m).snd = _
    unfold onClose clearHeartbeatTimer
    simp only [ne_eq, not_true_eq_false, if_false]
    rw [setConnectionState_snd]
  · intro hc
    refine ⟨?_, ?_, ?_⟩
    · intro hne
      show (onClose code m).snd.head? = _
      unfold onClose clearHeartbeatTimer
      rw [if_pos hc]
      dsimp only
      rw [setConnectionState_snd]
      dsimp only
      rw [if_neg hne]
      rfl
    · intro hlt
      rw [onClose_fst_of_abnormal code m hc]
      rw [scheduleReconnect_fst_of_lt
          { m with
              ws := m.ws.map fun s => { s with readyState := ReadyState.closed }
              heartbeatTimer := false
              connectionState := ConnectionState.disconnected } hlt]
      exact ⟨rfl, rfl, rfl⟩
    · intro hge
      rw [onClose_fst_of_abnormal code m hc]
      rw [scheduleReconnect_fst_of_ge
          { m with
              ws := m.ws.map fun s => { s with readyState := ReadyState.closed }
              heartbeatTimer := false
              connectionState := ConnectionState.disconnected } hge]
      exact ⟨rfl, rfl⟩

/-- C5 witness: a normal close on the connected fixture yields
`Disconnected`; an abnormal close (code 1006) yields `Reconnecting` with the
first-attempt backoff delay. -/
theorem C5_wit :
    (onClose 1000 connectedSample).fst.connectionState
        = ConnectionState.disconnected
    ∧ (onClose 1006 connectedSample).fst.connectionState
        = ConnectionState.reconnecting
    ∧ (onClose 1006 connectedSample).snd.head?
        = some ConnectionState.disconnected :=
  ⟨((C5_confirmed connectedSample 1000).1 rfl).1,
   (((C5_confirmed connectedSample 1006).2 (by decide)).2.1 (by decide)).1,
   ((C5_confirmed connectedSample 1006).2 (by decide)).1 (by decide)⟩

/-- C6: in every reachable manager state that is not `Connected`, a `send`
call transmits nothing, queues nothing, logs the not-connected warning, and
leaves the manager unchanged (and, being a total function of the state, it
throws nothing). -/
theorem C6_confirmed (c : PartialConfig) (es : List Event)
    (hv : validTrace (mkManager c) es = true)
    (hne : (run (mkManager c) es).connectionState ≠ ConnectionState.connected) :
    send (run (mkManager c) es)
      = { manager := run (mkManager c) es
          transmitted := false
          warned := true } := by
  have hinv := connInv_run (mkManager c) es hv (connInv_mkManager c)
  have ho : socketOpen (run (mkManager c) es) = false := by
    cases hso : socketOpen (run (mkManager c) es)
    · rfl
    · exact absurd (hinv.mp hso) hne
  unfold send
  simp only [ho, Bool.false_eq_true, if_false]

/-- C6 witness: a send issued right after `connect()` (state `Connecting`)
is dropped with the warning and changes nothing. -/
theorem C6_wit :
    send (run (mkManager {}) [Event.connectCall "" true])
      = { manager := run (mkManager {}) [Event.connectCall "" true]
          transmitted := false
          warned := true } :=
  C6_confirmed {} [Event.connectCall "" true] (by decide) (by decide)

/-- C7: the status-aggregator merge law.  With task ids unique in the
current snapshot, folding a `task-update` whose id occupies position `i`
replaces that task in place (`List.set i`), leaving exactly one task with
that id and keeping `activeAgents` and `queueLength` (and every other field)
untouched; folding a `task-update` whose id is absent appends the task at
the end, again leaving the other fields untouched. -/
theorem C7_confirmed (p : ProcessingStatus) (task : Task)
    (huniq : p.currentTasks.Pairwise fun a b => a.id ≠ b.id) :
    (∀ (i : Nat) (h : i < p.currentTasks.length),
        (p.currentTasks.get ⟨i, h⟩).id = task.id →
        applyTaskUpdate task (some p)
            = some { p with currentTasks := p.currentTasks.set i task }
        ∧ ((p.currentTasks.set i task).filter fun t => t.id == task.id).length
            = 1)
    ∧ ((∀ t ∈ p.currentTasks, t.id ≠ task.id) →
        applyTaskUpdate task (some p)
            = some { p with currentTasks := p.currentTasks ++ [task] }) := by
  constructor
  · intro i h hid
    constructor
    · simp only [applyTaskUpdate]
      rw [map_update_of_uniq task p.currentTasks i h huniq hid,
        find_isSome_set task p.currentTasks i h]
      rw [if_pos rfl]
    · exact filter_set_length_one task p.currentTasks i h huniq hid
  · intro hno
    simp only [applyTaskUpdate]
    rw [map_update_of_no_match task p.currentTasks hno,
      find_none_of_no_match task p.currentTasks hno]
    simp only [Option.isSome_none, Bool.false_eq_true, if_false]

/-- C7 witness: the spec's example.  Updating `id=a` from progress 10 to 50
replaces in place with exactly one `a`-task remaining; updating unseen
`id=b` appends. -/
theorem C7_wit :
    applyTaskUpdate taskA50 (some statusSample)
        = some { statusSample with
                   currentTasks := statusSample.currentTasks.set 0 taskA50 }
    ∧ ((statusSample.currentTasks.set 0 taskA50).filter
          fun t => t.id == taskA50.id).length = 1
    ∧ applyTaskUpdate taskB (some statusSample)
        = some { statusSample with
                   currentTasks := statusSample.currentTasks ++ [taskB] } :=
  ⟨((C7_confirmed statusSample taskA50 (by decide)).1 0 (by decide)
      (by decide)).1,
   ((C7_confirmed statusSample taskA50 (by decide)).1 0 (by decide)
      (by decide)).2,
   (C7_confirmed statusSample taskB (by decide)).2 (by decide)⟩

/-- C8: a `task-update` arriving with no prior snapshot is dropped (the
exposed status stays `none`), and more generally any sequence of aggregator
events containing no `processing-status` snapshot leaves the status `none`:
a non-null status only ever arises from a full snapshot. -/
theorem C8_confirmed :
    (∀ t : Task, applyTaskUpdate t none = none)
    ∧ (∀ es : List AggEvent, (∀ e ∈ es, e.isSnapshot = false) →
        aggRun none es = none) := by
  constructor
  · intro t
    rfl
  · intro es
    induction es with
    | nil => intro _; rfl
    | cons e es ih =>
        intro h
        cases e with
        | snapshot s =>
            have hs := h (AggEvent.snapshot s) (List.mem_cons_self _ _)
            cases hs
        | taskUpdate t =>
            show aggRun (aggStep none (AggEvent.taskUpdate t)) es = none
            have h1 : aggStep none (AggEvent.taskUpdate t) = none := rfl
            rw [h1]
            exact ih fun x hx => h x (List.mem_cons_of_mem _ hx)

/-- C8 witness: two deltas with no snapshot ever received leave the exposed
status `none`. -/
theorem C8_wit :
    applyTaskUpdate taskA50 none = none
    ∧ aggRun none [AggEvent.taskUpdate taskA50, AggEvent.taskUpdate taskB]
        = none :=
  ⟨C8_confirmed.1 taskA50,
   C8_confirmed.2 [AggEvent.taskUpdate taskA50, AggEvent.taskUpdate taskB]
     (by decide)⟩

/-- C9: the manager is a process-wide singleton fixed at first creation.
`getInstance` with an existing instance returns it unchanged and ignores its
config argument entirely; the module-level `wsManager` initialisation
creates the instance with the default configuration; and therefore any
config later passed through `useWebSocket` has no effect — the returned
instance keeps `DEFAULT_CONFIG`. -/
theorem C9_confirmed :
    (∀ (i : WebSocketManager) (cfg : PartialConfig),
        getInstance (some i) cfg = (i, some i))
    ∧ moduleLoad.fst = mkManager {}
    ∧ (mkManager {}).config = DEFAULT_CONFIG
    ∧ (∀ cfg : PartialConfig,
        (useWebSocket moduleLoad.snd cfg).config = DEFAULT_CONFIG) :=
  ⟨fun _ _ => rfl, rfl, rfl, fun _ => rfl⟩

/-- C10 counterexample: the claim "connect(token) stores the token in the
manager's configuration, so every automatic reconnect opens the socket with
the most recently provided token" is false: a `connect("B")` issued while
the socket is OPEN returns before the token-storing assignment (lines
67-73), so the stored token remains "A" and the reconnect after the next
abnormal close opens the socket with `?token=A`, not the most recently
provided "B".  The trace is browser-valid. -/
theorem C10_cex :
    (run (mkManager {}) [Event.connectCall "A" true, Event.wsOpen,
        Event.connectCall "B" true]).config.authToken = "A"
    ∧ (run (mkManager {}) [Event.connectCall "A" true, Event.wsOpen,
        Event.connectCall "B" true, Event.wsClose 1006,
        Event.timerFire true]).ws
        = some { id := 1, url := "ws://localhost:8000/ws?token=A",
                 readyState := ReadyState.connecting }
    ∧ validTrace (mkManager {}) [Event.connectCall "A" true, Event.wsOpen,
        Event.connectCall "B" true, Event.wsClose 1006,
        Event.timerFire true] = true := by
  decide

/-- C10 (amended): the auth token is sticky for every `connect` call that
proceeds: `connect(token)` with the socket not already OPEN stores the
token; `disconnect()` never clears the stored token; a firing reconnect
timer invokes `connect()` with no argument, which keeps the stored token and
opens the new socket on the URL built from the stored configuration; and
that URL carries the stored token percent-encoded in its query string.  (A
`connect(token)` made while the socket is OPEN is a no-op and does not store
the token — the counterexample's correction.) -/
theorem C10_corrected :
    (∀ (m : WebSocketManager) (tok : String) (ok : Bool),
        socketOpen m = false → tok ≠ "" →
        (connect tok ok m).fst.config.authToken = tok)
    ∧ (∀ m : WebSocketManager,
        (disconnect m).fst.config.authToken = m.config.authToken)
    ∧ (∀ m : WebSocketManager,
        m.reconnectTimer.isSome = true → socketOpen m = false →
        (stepM m (Event.timerFire true)).ws
            = some { id := m.nextSocketId, url := wsUrl m.config,
                     readyState := ReadyState.connecting }
        ∧ (stepM m (Event.timerFire true)).config.authToken
            = m.config.authToken)
    ∧ (∀ c : WebSocketConfig, c.authToken ≠ "" →
        wsUrl c = c.url ++ "?token=" ++ encodeURIComponent c.authToken) := by
  refine ⟨?_, ?_, ?_, ?_⟩
  · intro m tok ok ho ht
    cases ok
    · rw [connect_fst_of_not_open_err_tok tok m ho ht]
      rw [(scheduleReconnect_fst_frame _).2.1]
    · rw [connect_fst_of_not_open_tok tok m ho ht]
  · intro m
    rw [disconnect_fst m]
  · intro m htimer ho
    have h0 : stepM m (Event.timerFire true)
        = if m.reconnectTimer.isSome
          then (connect "" true (clearReconnectTimer m)).fst else m := rfl
    rw [h0, if_pos htimer]
    rw [connect_fst_of_not_open_empty (clearReconnectTimer m) ho]
    exact ⟨rfl, rfl⟩
  · intro c h
    unfold wsUrl
    rw [if_pos h]

/-- C10 witness: the sticky-token facts at concrete states, including that a
timer-fired reconnect from the waiting fixture opens the socket on the
stored-token URL. -/
theorem C10_wit :
    (connect "tok" true (mkManager {})).fst.config.authToken = "tok"
    ∧ (disconnect connectedSample).fst.config.authToken
        = connectedSample.config.authToken
    ∧ (stepM reconnectingSample (Event.timerFire true)).ws
        = some { id := reconnectingSample.nextSocketId,
                 url := wsUrl reconnectingSample.config,
                 readyState := ReadyState.connecting }
    ∧ wsUrl { DEFAULT_CONFIG with authToken := "A" }
        = "ws://localhost:8000/ws" ++ "?token=" ++ encodeURIComponent "A" :=
  ⟨C10_corrected.1 (mkManager {}) "tok" true (by decide) (by decide),
   C10_corrected.2.1 connectedSample,
   (C10_corrected.2.2.1 reconnectingSample (by decide) (by decide)).1,
   C10_corrected.2.2.2 { DEFAULT_CONFIG with authToken := "A" } (by decide)⟩

end AINovel
